import Mathlib

/-!
Shallow embedding of the cloudbridge Azure resource adapters
(`cloudbridge/cloud/providers/azure/resources.py`) together with proofs of
the behavioural properties stated in the repository specification.

Conventions used throughout:
* Python `None` becomes `Option.none`; Python truthiness of the optional
  values the source branches on is modelled explicitly (`pyStrTruthy`,
  `pyIntTruthy`, ...).
* Python dictionaries whose literal keys are distinct are modelled as
  association lists; `dict.get(k, d)` becomes `mapGet`.
* Code that can raise is modelled with `Option`/`Except`.
-/

/-- Python truthiness of an optional string (`None` and `''` are falsy). -/
def pyStrTruthy : Option String → Bool
  | none => false
  | some s => !s.isEmpty

/-- Python truthiness of an optional integer (`None` and `0` are falsy). -/
def pyIntTruthy : Option Int → Bool
  | none => false
  | some n => n != 0

/-- `d[k]` as `dict.get(k)`: first binding of `k` in an association list. -/
def pyGet (l : List (String × α)) (k : String) : Option α :=
  (l.find? (fun p => p.1 == k)).map (fun p => p.2)

/-- `d.get(k, dflt)` on an association list. -/
def mapGet (l : List (String × α)) (k : String) (dflt : α) : α :=
  (pyGet l k).getD dflt

/-- Python `dict.update({k: v})`: replace the binding of `k` in place, or
append it when absent. -/
def pyDictUpdate (l : List (String × String)) (k v : String) :
    List (String × String) :=
  if l.any (fun p => p.1 == k) then
    l.map (fun p => if p.1 == k then (k, v) else p)
  else
    l ++ [(k, v)]

/-- Modelled from the spec: the six-valued normalized volume state enum
(plus the `UNKNOWN` default) of `cloudbridge.cloud.interfaces.VolumeState`;
the interfaces module is not under `src/`, only its members are referenced. -/
inductive VolumeState where
  | CREATING
  | AVAILABLE
  | IN_USE
  | CONFIGURING
  | DELETED
  | ERROR
  | UNKNOWN
deriving DecidableEq

/-- Modelled from the spec: the normalized instance state enum of
`cloudbridge.cloud.interfaces.InstanceState` (module not under `src/`). -/
inductive InstanceState where
  | PENDING
  | RUNNING
  | CONFIGURING
  | DELETED
  | STOPPED
  | ERROR
  | UNKNOWN
deriving DecidableEq

/-- Modelled from the spec: the two-valued traffic-direction enum of
`cloudbridge.cloud.interfaces.resources.TrafficDirection` (module not under
`src/`). -/
inductive TrafficDirection where
  | INBOUND
  | OUTBOUND
deriving DecidableEq

/-- A tag value as stored by the provider: Azure tags are strings, but a
caller may also have stored a boolean; Python compares either with `==`. -/
inductive TagVal where
  | str (s : String)
  | boolean (b : Bool)
deriving DecidableEq

/-- The facet of the Azure managed-disk SDK payload used by `AzureVolume`
(`resources.py` lines 449-637) and by the disk fetches in
`AzureInstance.delete` (lines 1355-1386). -/
structure AzureDiskData where
  name : String
  provisioning_state : String
  managed_by : Option String
  tags : Option (List (String × TagVal))
deriving DecidableEq

/-- `AzureVolume.VOLUME_STATE_MAP` (`resources.py` lines 450-460), in source
order. -/
def VOLUME_STATE_MAP : List (String × VolumeState) :=
  [("InProgress", VolumeState.CREATING),
   ("Creating", VolumeState.CREATING),
   ("Unattached", VolumeState.AVAILABLE),
   ("Attached", VolumeState.IN_USE),
   ("Deleting", VolumeState.CONFIGURING),
   ("Updating", VolumeState.CONFIGURING),
   ("Deleted", VolumeState.DELETED),
   ("Failed", VolumeState.ERROR),
   ("Canceled", VolumeState.ERROR)]

/-- `AzureVolume._update_state` (`resources.py` lines 471-477): the internal
state string derived from the wrapped disk payload. -/
def volumeUpdateState (v : AzureDiskData) : String :=
  if ¬ (v.provisioning_state = "Succeeded") then
    v.provisioning_state
  else if pyStrTruthy v.managed_by then
    "Attached"
  else
    "Unattached"

/-- `AzureVolume.state` (`resources.py` lines 619-622): the internal state
string mapped through `VOLUME_STATE_MAP`, defaulting to `UNKNOWN`. -/
def volumeState (v : AzureDiskData) : VolumeState :=
  mapGet VOLUME_STATE_MAP (volumeUpdateState v) VolumeState.UNKNOWN

/-- One entry of an Azure VM instance view's `statuses` list. -/
structure InstanceViewStatus where
  display_status : String
deriving DecidableEq

/-- The facet of the Azure VM instance view used by
`AzureInstance._update_state`. -/
structure InstanceView where
  statuses : List InstanceViewStatus
deriving DecidableEq

/-- `AzureInstance.INSTANCE_STATE_MAP` (`resources.py` lines 1227-1243), in
source order. -/
def INSTANCE_STATE_MAP : List (String × InstanceState) :=
  [("InProgress", InstanceState.PENDING),
   ("Creating", InstanceState.PENDING),
   ("VM running", InstanceState.RUNNING),
   ("Updating", InstanceState.CONFIGURING),
   ("Deleted", InstanceState.DELETED),
   ("Stopping", InstanceState.CONFIGURING),
   ("Deleting", InstanceState.CONFIGURING),
   ("Stopped", InstanceState.STOPPED),
   ("Canceled", InstanceState.ERROR),
   ("Failed", InstanceState.ERROR),
   ("VM stopped", InstanceState.STOPPED),
   ("VM deallocated", InstanceState.STOPPED),
   ("VM deallocating", InstanceState.CONFIGURING),
   ("VM stopping", InstanceState.CONFIGURING),
   ("VM starting", InstanceState.CONFIGURING)]

/-- `AzureInstance._update_state` (`resources.py` lines 1555-1571) in the
case where an instance view is already cached (so the `refresh()` network
round trip on a missing view is not triggered): with two or more status
entries the second entry's display status becomes the internal state string,
otherwise the raw provisioning state does. -/
def instanceUpdateStateCached (iv : InstanceView) (provisioning_state : String) :
    String :=
  if iv.statuses.length > 1 then
    (iv.statuses.getD 1 ⟨""⟩).display_status
  else
    provisioning_state

/-- `AzureInstance.state` (`resources.py` lines 1573-1576): the internal
state string mapped through `INSTANCE_STATE_MAP`, defaulting to `UNKNOWN`. -/
def instanceState (s : String) : InstanceState :=
  mapGet INSTANCE_STATE_MAP s InstanceState.UNKNOWN

/-- The facet of an Azure network-security-group rule used by the firewall
rule adapters. The source fields `source_address_prefix` and
`destination_address_prefix` are renamed to `source_address_pfx` /
`destination_address_pfx` here. -/
structure AzureRule where
  name : String := ""
  priority : Int := 0
  protocol : String := ""
  source_port_range : String := ""
  source_address_pfx : String := ""
  destination_port_range : String := ""
  destination_address_pfx : String := ""
  access : String := ""
  direction : String := ""
deriving DecidableEq

/-- `AzureVMFirewallRuleContainer.list` (`resources.py` lines 155-164): the
security group's rules filtered to priority strictly below 3500 (the
adapter wraps each in an `AzureVMFirewallRule`, an identity-preserving
wrapper). -/
def fwListRules (security_rules : List AzureRule) : List AzureRule :=
  security_rules.filter (fun rule => rule.priority < 3500)

/-- The outcome of the backend `delete_vm_firewall` call as observed by
`AzureVMFirewall.delete` (`resources.py` lines 119-126): either success or a
provider-level `CloudError` carrying a message. -/
inductive FwDeleteOutcome where
  | ok
  | cloudError (msg : String)
deriving DecidableEq

/-- `AzureVMFirewall.delete` (`resources.py` lines 119-126): returns `true`
on success and catches a `CloudError`, logging it and returning `false`.
The function is total on the outcome type, i.e. no exception escapes. -/
def vmFirewallDelete : FwDeleteOutcome → Bool
  | FwDeleteOutcome.ok => true
  | FwDeleteOutcome.cloudError _ => false

/-- The tag-bearing facet shared by the provider payloads wrapped by the
seven tag-backed adapters (`AzureVMFirewall` lines 72-99, `AzureVolume`
lines 462-511, `AzureSnapshot` lines 651-686, `AzureMachineImage` lines
762-802, `AzureNetwork` lines 894-928, `AzureInstance` lines 1245-1318,
`AzureRouter` lines 1680-1713): the immutable provider-assigned `name` and
an optional tag mapping. -/
structure TaggedPayload where
  name : String
  tags : Option (List (String × String))
deriving DecidableEq

/-- Python truthiness of an optional tag dictionary (`None` and `{}` are
falsy). -/
def pyTagsTruthy : Option (List (String × String)) → Bool
  | none => false
  | some l => !l.isEmpty

/-- The tag normalization performed by each of the seven tag-backed adapter
constructors: `if not payload.tags: payload.tags = {}` (identical in all
seven classes, e.g. `resources.py` lines 76-77, 468-469, 656-657, 767-768,
898-899, 1250-1251, 1683-1684). -/
def azureTagInit (p : TaggedPayload) : TaggedPayload :=
  if pyTagsTruthy p.tags then p else { p with tags := some [] }

/-- The shared `name` getter of the seven tag-backed adapters:
`payload.tags.get('Name', payload.name)` (e.g. `resources.py` lines 94,
498, 674, 792, 917, 1307, 1701). -/
def azureTagName (p : TaggedPayload) : String :=
  mapGet (p.tags.getD []) "Name" p.name

/-- The shared `name` setter of the seven tag-backed adapters:
`payload.tags.update(Name=value)` followed by a backend tag push (the local
tag mutation is what the subsequent `name` reads observe). -/
def azureTagSetName (p : TaggedPayload) (value : String) : TaggedPayload :=
  { p with tags := some (pyDictUpdate (p.tags.getD []) "Name" value) }

/-- A public-IP reference attached to an IP configuration. -/
structure PublicIPRef where
  id : String
deriving DecidableEq

/-- An IP configuration of a network interface. -/
structure IPConfig where
  public_ip_address : Option PublicIPRef
deriving DecidableEq

/-- A network interface payload as used by
`AzureInstance.remove_floating_ip`. -/
structure Nic where
  ip_configurations : List IPConfig
deriving DecidableEq

/-- `nic.ip_configurations[0].public_ip_address = None`
(`resources.py` line 1494). -/
def nicClearFirstPublicIp (nic : Nic) : Nic :=
  { nic with ip_configurations :=
      match nic.ip_configurations with
      | [] => []
      | c :: rest => { c with public_ip_address := none } :: rest }

/-- The loop body of `AzureInstance.remove_floating_ip` (`resources.py`
lines 1487-1496) over the snapshot of the NIC's IP configurations:
`ip_config.public_ip_address.id` is dereferenced unguarded, so a
configuration with no bound public IP raises an `AttributeError`. -/
def removeFloatingIpLoop (fipId : String) (nic : Nic) :
    List IPConfig → Except String Nic
  | [] => Except.ok nic
  | cfg :: rest =>
    match cfg.public_ip_address with
    | none => Except.error "AttributeError: NoneType object has no attribute id"
    | some p =>
      if p.id == fipId then
        removeFloatingIpLoop fipId (nicClearFirstPublicIp nic) rest
      else
        removeFloatingIpLoop fipId nic rest

/-- `AzureInstance.remove_floating_ip` (`resources.py` lines 1487-1496),
restricted to its effect on the first network interface (the only one it
touches); the `update_nic` push re-sends the locally mutated NIC. -/
def removeFloatingIp (nic : Nic) (fipId : String) : Except String Nic :=
  removeFloatingIpLoop fipId nic nic.ip_configurations

/-- Whether an embedded fallible computation ended in an error. -/
def exceptIsError : Except ε α → Bool
  | Except.error _ => true
  | Except.ok _ => false

/-- Python `s.split(sep, 1)[0/1]` for a one-character separator, on the
character list: `none` when the separator is absent (so that a subscript
`[1]` would raise `IndexError`), otherwise the pieces before and after the
first occurrence. -/
def splitFirstChar (sep : Char) : List Char → Option (List Char × List Char)
  | [] => none
  | c :: cs =>
    if c = sep then
      some ([], cs)
    else
      (splitFirstChar sep cs).map (fun parts => (c :: parts.1, parts.2))

/-- The value of a decimal digit character, `none` for a non-digit. -/
def charDigit (c : Char) : Option Nat :=
  if c.isDigit then some (c.toNat - '0'.toNat) else none

/-- Accumulate the decimal value of a digit string; `none` on a non-digit. -/
def digitsVal : List Char → Nat → Option Nat
  | [], acc => some acc
  | c :: rest, acc =>
    match charDigit c with
    | none => none
    | some d => digitsVal rest (acc * 10 + d)

/-- The value of a non-empty all-digit character list, else `none`. -/
def parseDigits (l : List Char) : Option Nat :=
  match l with
  | [] => none
  | _ => digitsVal l 0

/-- Python `int(s)` on an optionally `'-'`-signed decimal string; any other
input raises `ValueError`, modelled as `none`. -/
def pyIntParse (s : String) : Option Int :=
  match s.data with
  | [] => none
  | c :: rest =>
    if c = '-' then
      (parseDigits rest).map (fun n => -(n : Int))
    else
      (parseDigits s.data).map (fun n => (n : Int))

/-- `AzureVMFirewallRule._port_range_tuple` (`resources.py` lines 247-252):
the sentinel `"*"` expands to `(1, 65535)`, otherwise the destination port
range is split on the first `'-'` and both pieces parsed as integers
(raising, i.e. `none`, when there is no `'-'` or a piece is not numeric). -/
def portRangeTuple (r : AzureRule) : Option (Int × Int) :=
  if r.destination_port_range = "*" then
    some (1, 65535)
  else
    match splitFirstChar '-' r.destination_port_range.data with
    | none => none
    | some parts =>
      match pyIntParse (String.mk parts.1), pyIntParse (String.mk parts.2) with
      | some x, some y => some (x, y)
      | _, _ => none

/-- `AzureVMFirewallRule.direction` (`resources.py` lines 226-229). -/
def ruleDirection (r : AzureRule) : TrafficDirection :=
  if r.direction = "Inbound" then TrafficDirection.INBOUND
  else TrafficDirection.OUTBOUND

/-- `AzureVMFirewallRule.cidr` (`resources.py` lines 254-256). -/
def ruleCidr (r : AzureRule) : String :=
  r.source_address_pfx

/-- `AzureVMFirewallRuleContainer._create_rule` (`resources.py` lines
183-211): builds the new rule from the parameters (the backend echoes the
created rule, which the adapter appends to the in-memory rule list) and
returns the updated rule list together with the created rule. -/
def fwCreateRuleCore (security_rules : List AzureRule)
    (direction : TrafficDirection) (protocol : String) (from_port to_port : Int)
    (cidr : Option String) : List AzureRule × AzureRule :=
  let cidrStr := if pyStrTruthy cidr then cidr.getD "" else "0.0.0.0/0"
  let count := security_rules.length + 1
  let rule : AzureRule :=
    { name := "Rule - " ++ toString count,
      priority := 1000 + (count : Int),
      protocol := protocol,
      source_port_range := "*",
      source_address_pfx := cidrStr,
      destination_port_range := toString from_port ++ "-" ++ toString to_port,
      destination_address_pfx := "*",
      access := "Allow",
      direction := if direction = TrafficDirection.INBOUND then "Inbound" else "Outbound" }
  (security_rules ++ [rule], rule)

/-- The `src_dest_fw` branch of `AzureVMFirewallRuleContainer.create`
(`resources.py` lines 171-179): clone every rule of the source firewall
into this one, returning the last created rule (the per-rule port-range
parse may raise, modelled by `Except.error`). -/
def fwCloneRules (security_rules : List AzureRule) (src : List AzureRule)
    (last : Option AzureRule) :
    Except String (List AzureRule × Option AzureRule) :=
  match src with
  | [] => Except.ok (security_rules, last)
  | r :: rest =>
    match portRangeTuple r with
    | none => Except.error "ValueError"
    | some pr =>
      let res := fwCreateRuleCore security_rules (ruleDirection r) r.protocol
        pr.1 pr.2 (some (ruleCidr r))
      fwCloneRules res.1 rest (some res.2)

/-- `AzureVMFirewallRuleContainer.create` (`resources.py` lines 166-181):
the guard `if protocol and from_port and to_port` is Python truthiness, the
`elif src_dest_fw` branch clones the source firewall's rules, and otherwise
no rule is created. -/
def fwCreate (security_rules : List AzureRule) (direction : TrafficDirection)
    (protocol : Option String) (from_port to_port : Option Int)
    (cidr : Option String) (src_dest_fw : Option (List AzureRule)) :
    Except String (List AzureRule × Option AzureRule) :=
  if pyStrTruthy protocol && pyIntTruthy from_port && pyIntTruthy to_port then
    let res := fwCreateRuleCore security_rules direction (protocol.getD "")
      (from_port.getD 0) (to_port.getD 0) cidr
    Except.ok (res.1, some res.2)
  else
    match src_dest_fw with
    | some srcRules => fwCloneRules security_rules srcRules none
    | none => Except.ok (security_rules, none)

/-- Prepend a character to the first piece of a split result (the
character-accumulation step of a left-to-right scan). -/
def consHead (c : Char) (res : List (List Char)) : List (List Char) :=
  match res with
  | [] => [[c]]
  | h :: t => (c :: h) :: t

/-- Whether the three-character separator `"|$|"` occurs at the current
scan position `c :: cs`. -/
def sepAt (c : Char) (cs : List Char) : Bool :=
  match cs with
  | c2 :: c3 :: _ => c == '|' && c2 == '$' && c3 == '|'
  | _ => false

/-- Fuelled left-to-right scan implementing Python
`s.split('|$|')`: at each position either consume a non-overlapping
occurrence of the separator and start a new piece, or move one character
into the current piece. The fuel is instantiated with the input length, so
the zero-fuel arm is never reached. -/
def splitBarF : Nat → List Char → List (List Char)
  | _, [] => [[]]
  | 0, l => [l]
  | fuel + 1, c :: cs =>
    if sepAt c cs then
      [] :: splitBarF fuel (cs.drop 2)
    else
      consHead c (splitBarF fuel cs)

/-- Python `composite.split('|$|')` as used by `AzureSubnet.delete`
(`resources.py` line 1196). -/
def pySplitSep (s : String) : List String :=
  (splitBarF s.data.length s.data).map String.mk

/-- `AzureSubnet.id` (`resources.py` lines 1159-1161): the composite
subnet identity `<network_id>|$|<subnet_name>`. -/
def subnetId (network_id subnet_name : String) : String :=
  network_id ++ "|$|" ++ subnet_name

/-- `AzureSubnet.delete` (`resources.py` lines 1190-1202): the two
arguments passed to the backend `delete_subnet` call, recovered by
splitting the composite id on `'|$|'` and subscripting the first two parts
(`none` models the `IndexError` when fewer than two parts exist). -/
def subnetDeleteArgs (composite_id : String) : Option (String × String) :=
  match pySplitSep composite_id with
  | a :: b :: _ => some (a, b)
  | _ => none

/-- Full split of a character list on a one-character separator (Python
`s.split(sep)` for a single-character separator). -/
def splitChar (sep : Char) : List Char → List (List Char)
  | [] => [[]]
  | c :: cs =>
    if c = sep then
      [] :: splitChar sep cs
    else
      consHead c (splitChar sep cs)

/-- The opening brace character of a URL-template placeholder. -/
def lbrace : Char := Char.ofNat 123

/-- The closing brace character of a URL-template placeholder. -/
def rbrace : Char := Char.ofNat 125

/-- Whether a template path segment is a `\x7bname\x7d` placeholder. -/
def isPlaceholder (seg : List Char) : Bool :=
  match seg with
  | c :: _ => c == lbrace && seg.getLast? == some rbrace
  | [] => false

/-- The placeholder name between the braces of a template segment. -/
def stripBraces (seg : List Char) : List Char :=
  (seg.drop 1).dropLast

/-- Match URL path segments against template path segments, binding each
placeholder segment to the corresponding literal value; `none` on any
literal mismatch or length mismatch. -/
def parseSegs :
    List (List Char) → List (List Char) → Option (List (List Char × List Char))
  | [], [] => some []
  | t :: ts, u :: us =>
    match parseSegs ts us with
    | none => none
    | some acc =>
      if isPlaceholder t then
        some ((stripBraces t, u) :: acc)
      else if t == u then
        some acc
      else
        none
  | _, _ => none

/-- Modelled from the spec: `azure_helpers.parse_url` — the repository's
`helpers` module is not under `src/`. Per spec §4.1 it parses a structured
Azure resource-id string against one of the fixed URL templates into a
mapping from named path segment to its literal value, with a malformed
input surfacing as a lookup miss (here: an empty mapping). -/
def parse_url (template url : String) : List (String × String) :=
  ((parseSegs (splitChar '/' template.data) (splitChar '/' url.data)).getD
    []).map (fun p => (String.mk p.1, String.mk p.2))

/-- `VOLUME_RESOURCE_ID` (`resources.py` lines 44-46). -/
def VOLUME_RESOURCE_ID : String :=
  "/subscriptions/\x7bsubscriptionId\x7d/resourceGroups/\x7bresourceGroupName\x7d/providers/Microsoft.Compute/disks/\x7bdiskName\x7d"

/-- `VOLUME_NAME` (`resources.py` line 67). -/
def VOLUME_NAME : String :=
  "diskName"

/-- The disk name recovered from a managed-disk resource id:
`parse_url(VOLUME_RESOURCE_ID, uri).get(VOLUME_NAME)`. -/
def volNameFromId (uri : String) : Option String :=
  pyGet (parse_url VOLUME_RESOURCE_ID uri) VOLUME_NAME

/-- A managed-disk reference inside a VM storage profile. -/
structure ManagedDiskRef where
  id : String
deriving DecidableEq

/-- A data-disk entry of a VM storage profile. -/
structure DataDisk where
  managed_disk : Option ManagedDiskRef
deriving DecidableEq

/-- The OS-disk entry of a VM storage profile. -/
structure OSDisk where
  managed_disk : Option ManagedDiskRef
deriving DecidableEq

/-- The facet of a VM storage profile walked by `AzureInstance.delete`. -/
structure StorageProfile where
  data_disks : List DataDisk
  os_disk : OSDisk
deriving DecidableEq

/-- The backend `azure_client.get_disk` modelled as a lookup keyed by disk
name over the backend's disks. -/
def clientGetDisk (client : List (String × AzureDiskData)) (n : String) :
    Option AzureDiskData :=
  pyGet client n

/-- The per-data-disk body of `AzureInstance.delete` (`resources.py` lines
1369-1380): for a managed data disk, resolve the disk name from the
managed-disk resource id, fetch the disk, and issue a `delete_disk` call
(the returned value, carrying the resolved name) exactly when
`disk and disk.tags and disk.tags.get('delete_on_terminate', 'False') == 'True'`. -/
def dataDiskDeleteCall (client : List (String × AzureDiskData))
    (dd : DataDisk) : Option (Option String) :=
  match dd.managed_disk with
  | none => none
  | some m =>
    match (volNameFromId m.id).bind (clientGetDisk client) with
    | none => none
    | some d =>
      match d.tags with
      | none => none
      | some tl =>
        if tl.isEmpty then
          none
        else if mapGet tl "delete_on_terminate" (TagVal.str "False") = TagVal.str "True" then
          some (volNameFromId m.id)
        else
          none

/-- The OS-disk tail of `AzureInstance.delete` (`resources.py` lines
1381-1386): an unconditional `delete_disk` call whenever the OS disk is a
managed disk. -/
def osDiskDeleteCall (sp : StorageProfile) : List (Option String) :=
  match sp.os_disk.managed_disk with
  | none => []
  | some m => [volNameFromId m.id]

/-- The `delete_disk` calls issued by `AzureInstance.delete`
(`resources.py` lines 1355-1386), in order: the tag-gated data-disk
deletions followed by the unconditional managed OS-disk deletion. -/
def instanceDeleteDiskCalls (client : List (String × AzureDiskData))
    (sp : StorageProfile) : List (Option String) :=
  sp.data_disks.filterMap (dataDiskDeleteCall client) ++ osDiskDeleteCall sp

/-- C1. For every `AzureVolume`: when `provisioning_state` is not
`"Succeeded"` the derived state is the raw provisioning-state string mapped
through the fixed table (in particular `"Failed"` maps to `ERROR` regardless
of any managing-resource reference); when it is `"Succeeded"` and the disk
has a managing-resource reference (a truthy `managed_by`) the state is
`IN_USE`; when `"Succeeded"` with no managing reference, `AVAILABLE`; and a
provisioning-state string not in the table maps to `UNKNOWN`. -/
theorem c1_volume_state_derivation :
    (∀ v : AzureDiskData, v.provisioning_state ≠ "Succeeded" →
      volumeState v = mapGet VOLUME_STATE_MAP v.provisioning_state VolumeState.UNKNOWN)
    ∧ (∀ v : AzureDiskData, v.provisioning_state = "Failed" →
      volumeState v = VolumeState.ERROR)
    ∧ (∀ v : AzureDiskData, v.provisioning_state = "Succeeded" →
      pyStrTruthy v.managed_by = true → volumeState v = VolumeState.IN_USE)
    ∧ (∀ v : AzureDiskData, v.provisioning_state = "Succeeded" →
      pyStrTruthy v.managed_by = false → volumeState v = VolumeState.AVAILABLE)
    ∧ (∀ v : AzureDiskData, v.provisioning_state ≠ "Succeeded" →
      pyGet VOLUME_STATE_MAP v.provisioning_state = none →
      volumeState v = VolumeState.UNKNOWN) := by
  refine ⟨?_, ?_, ?_, ?_, ?_⟩
  · intro v h
    simp [volumeState, volumeUpdateState, h]
  · intro v h
    have h' : v.provisioning_state ≠ "Succeeded" := by
      rw [h]; decide
    simp [volumeState, volumeUpdateState, h', h]
    decide
  · intro v h ht
    simp [volumeState, volumeUpdateState, h, ht]
    decide
  · intro v h ht
    simp [volumeState, volumeUpdateState, h, ht]
    decide
  · intro v h hmiss
    simp [volumeState, volumeUpdateState, h, mapGet, hmiss]

/-- Witness for C1 at concrete disks. -/
theorem c1_volume_state_derivation_witness :
    volumeState ⟨"d", "Failed", some "/vm/x", none⟩ = VolumeState.ERROR
    ∧ volumeState ⟨"d", "Succeeded", some "/vm/x", none⟩ = VolumeState.IN_USE
    ∧ volumeState ⟨"d", "Succeeded", none, none⟩ = VolumeState.AVAILABLE
    ∧ volumeState ⟨"d", "Bogus", none, none⟩ = VolumeState.UNKNOWN := by
  refine ⟨?_, ?_, ?_, ?_⟩
  · exact c1_volume_state_derivation.2.1 _ rfl
  · exact c1_volume_state_derivation.2.2.1 _ rfl (by decide)
  · exact c1_volume_state_derivation.2.2.2.1 _ rfl (by decide)
  · exact c1_volume_state_derivation.2.2.2.2 _ (by decide) (by decide)

/-- C2 counterexample: the claim describes `INSTANCE_STATE_MAP` as "the
thirteen-entry state table", but the table in the source has fifteen
entries. -/
theorem c2_instance_state_table_size_counterexample :
    INSTANCE_STATE_MAP.length = 15 ∧ INSTANCE_STATE_MAP.length ≠ 13 := by
  decide

/-- C2 (amended: the state table has fifteen entries, not thirteen). For
every `AzureInstance` with a cached instance view: with two or more status
entries the state is the second entry's display status mapped through the
fifteen-entry `INSTANCE_STATE_MAP` (independently of the provisioning
state, which is universally quantified here); with zero or one status
entries the raw provisioning state is used instead; unmapped strings map to
`UNKNOWN`. -/
theorem c2_instance_state_derivation :
    INSTANCE_STATE_MAP.length = 15
    ∧ (∀ (ps : String) (s0 s1 : InstanceViewStatus) (rest : List InstanceViewStatus),
      instanceState (instanceUpdateStateCached ⟨s0 :: s1 :: rest⟩ ps) =
        mapGet INSTANCE_STATE_MAP s1.display_status InstanceState.UNKNOWN)
    ∧ (∀ ps : String, instanceUpdateStateCached ⟨[]⟩ ps = ps)
    ∧ (∀ (ps : String) (s0 : InstanceViewStatus),
      instanceUpdateStateCached ⟨[s0]⟩ ps = ps)
    ∧ (∀ s : String, pyGet INSTANCE_STATE_MAP s = none →
      instanceState s = InstanceState.UNKNOWN) := by
  refine ⟨by decide, ?_, ?_, ?_, ?_⟩
  · intro ps s0 s1 rest
    have hlen : (s0 :: s1 :: rest).length > 1 := by
      simp
    simp [instanceUpdateStateCached, hlen, instanceState, List.getD]
  · intro ps
    simp [instanceUpdateStateCached]
  · intro ps s0
    simp [instanceUpdateStateCached]
  · intro s h
    simp [instanceState, mapGet, h]

/-- Witness for C2 at a concrete instance view: the second status entry
("VM running") decides the state even though the provisioning state
("Failed") would map to `ERROR`; with one entry the provisioning state is
used. -/
theorem c2_instance_state_derivation_witness :
    instanceState (instanceUpdateStateCached
      ⟨[⟨"Provisioning succeeded"⟩, ⟨"VM running"⟩]⟩ "Failed") =
        InstanceState.RUNNING
    ∧ instanceUpdateStateCached ⟨[⟨"Provisioning succeeded"⟩]⟩ "Failed" = "Failed"
    ∧ instanceState "totally new status" = InstanceState.UNKNOWN := by
  refine ⟨?_, ?_, ?_⟩
  · have h := c2_instance_state_derivation.2.1 "Failed"
      ⟨"Provisioning succeeded"⟩ ⟨"VM running"⟩ []
    rw [h]
    decide
  · exact c2_instance_state_derivation.2.2.2.1 "Failed" ⟨"Provisioning succeeded"⟩
  · exact c2_instance_state_derivation.2.2.2.2 _ (by decide)

/-- C5. For every security-group payload, `list()` returns exactly the
rules with priority strictly below 3500 and never returns a rule with
priority ≥ 3500. -/
theorem c5_rule_list_priority_filter :
    ∀ (security_rules : List AzureRule) (r : AzureRule),
      (r ∈ fwListRules security_rules ↔ r ∈ security_rules ∧ r.priority < 3500)
      ∧ ¬ (r ∈ fwListRules security_rules ∧ 3500 ≤ r.priority) := by
  intro security_rules r
  constructor
  · simp [fwListRules, List.mem_filter]
  · rintro ⟨hmem, hge⟩
    rw [fwListRules, List.mem_filter] at hmem
    have := of_decide_eq_true hmem.2
    omega

/-- Witness for C5 on a concrete security group straddling the boundary. -/
theorem c5_rule_list_priority_filter_witness :
    ({ name := "low", priority := 1001 } : AzureRule) ∈
        fwListRules [{ name := "low", priority := 1001 }, { name := "reserved", priority := 3500 }]
    ∧ ¬ (({ name := "reserved", priority := 3500 } : AzureRule) ∈
        fwListRules [{ name := "low", priority := 1001 }, { name := "reserved", priority := 3500 }]) := by
  constructor
  · exact ((c5_rule_list_priority_filter _ _).1).mpr ⟨by decide, by decide⟩
  · intro hmem
    exact (c5_rule_list_priority_filter _ { name := "reserved", priority := 3500 }).2
      ⟨hmem, by decide⟩

/-- C9. `AzureVMFirewall.delete()` returns true exactly when the backend
delete succeeds and false exactly when the backend raises a `CloudError`;
being a total function into `Bool`, the embedded operation propagates no
exception. -/
theorem c9_firewall_delete_boolean :
    ∀ o : FwDeleteOutcome,
      (vmFirewallDelete o = true ↔ o = FwDeleteOutcome.ok)
      ∧ (vmFirewallDelete o = false ↔ ∃ m, o = FwDeleteOutcome.cloudError m) := by
  intro o
  cases o with
  | ok => simp [vmFirewallDelete]
  | cloudError m => simp [vmFirewallDelete]

/-- Witness for C9 at both concrete outcomes. -/
theorem c9_firewall_delete_boolean_witness :
    vmFirewallDelete FwDeleteOutcome.ok = true
    ∧ vmFirewallDelete (FwDeleteOutcome.cloudError "err") = false := by
  constructor
  · exact (c9_firewall_delete_boolean FwDeleteOutcome.ok).1.mpr rfl
  · exact (c9_firewall_delete_boolean (FwDeleteOutcome.cloudError "err")).2.mpr ⟨"err", rfl⟩

/-- C7. For every tag-backed Azure adapter (`AzureVMFirewall`,
`AzureVolume`, `AzureSnapshot`, `AzureMachineImage`, `AzureNetwork`,
`AzureInstance`, `AzureRouter`, all of which run the identical
tag-normalization statement modelled by `azureTagInit`): constructing it
over a payload with an absent tag mapping yields a non-absent (empty) tag
mapping, the `name` property then returns the provider-assigned raw name,
and after a `Name` tag is set it returns the tag value. -/
theorem c7_tag_backed_name_fallback :
    ∀ p : TaggedPayload, p.tags = none →
      (azureTagInit p).tags ≠ none
      ∧ (azureTagInit p).tags = some []
      ∧ azureTagName (azureTagInit p) = p.name
      ∧ ∀ value : String,
          azureTagName (azureTagSetName (azureTagInit p) value) = value := by
  intro p h
  have hinit : azureTagInit p = { p with tags := some [] } := by
    simp [azureTagInit, pyTagsTruthy, h]
  refine ⟨?_, ?_, ?_, ?_⟩
  · rw [hinit]; simp
  · rw [hinit]
  · rw [hinit]
    simp [azureTagName, mapGet, pyGet]
  · intro value
    rw [hinit]
    simp [azureTagName, azureTagSetName, pyDictUpdate, mapGet, pyGet]

/-- Witness for C7 at a concrete payload. -/
theorem c7_tag_backed_name_fallback_witness :
    (azureTagInit ⟨"raw-name", none⟩).tags = some []
    ∧ azureTagName (azureTagInit ⟨"raw-name", none⟩) = "raw-name"
    ∧ azureTagName (azureTagSetName (azureTagInit ⟨"raw-name", none⟩) "nice") = "nice" := by
  refine ⟨?_, ?_, ?_⟩
  · exact (c7_tag_backed_name_fallback ⟨"raw-name", none⟩ rfl).2.1
  · exact (c7_tag_backed_name_fallback ⟨"raw-name", none⟩ rfl).2.2.1
  · exact (c7_tag_backed_name_fallback ⟨"raw-name", none⟩ rfl).2.2.2 "nice"

/-- Helper: the `remove_floating_ip` scan raises as soon as it reaches a
configuration with no bound public IP, whatever the threaded NIC state. -/
theorem removeFloatingIpLoop_error_of_unbound (fipId : String) :
    ∀ (cfgs : List IPConfig) (nic : Nic),
      (∃ cfg ∈ cfgs, cfg.public_ip_address = none) →
      exceptIsError (removeFloatingIpLoop fipId nic cfgs) = true := by
  intro cfgs
  induction cfgs with
  | nil =>
    intro nic h
    rcases h with ⟨cfg, hmem, _⟩
    exact absurd hmem (List.not_mem_nil cfg)
  | cons cfg rest ih =>
    intro nic h
    rcases h with ⟨c, hmem, hnone⟩
    rcases List.mem_cons.mp hmem with hc | hc
    · subst hc
      simp [removeFloatingIpLoop, hnone, exceptIsError]
    · cases hcfg : cfg.public_ip_address with
      | none => simp [removeFloatingIpLoop, hcfg, exceptIsError]
      | some p =>
        by_cases hid : (p.id == fipId) = true
        · simp [removeFloatingIpLoop, hcfg, hid]
          exact ih _ ⟨c, hc, hnone⟩
        · simp [removeFloatingIpLoop, hcfg, hid]
          exact ih _ ⟨c, hc, hnone⟩

/-- C10. For every `AzureInstance` whose first network interface has at
least one IP configuration with no public IP address bound,
`remove_floating_ip` raises (the unguarded dereference of the
configuration's public-IP reference) rather than skipping the configuration
or completing as a silent no-op. -/
theorem c10_remove_floating_ip_unguarded :
    ∀ (nic : Nic) (fipId : String),
      (∃ cfg ∈ nic.ip_configurations, cfg.public_ip_address = none) →
      exceptIsError (removeFloatingIp nic fipId) = true := by
  intro nic fipId h
  exact removeFloatingIpLoop_error_of_unbound fipId nic.ip_configurations nic h

/-- Witness for C10 at a concrete NIC: an earlier configuration matches the
floating ip being removed, yet the later unbound configuration is still
reached and the call errors. -/
theorem c10_remove_floating_ip_unguarded_witness :
    exceptIsError (removeFloatingIp
      ⟨[⟨some ⟨"fip-1"⟩⟩, ⟨none⟩]⟩ "fip-1") = true := by
  exact c10_remove_floating_ip_unguarded ⟨[⟨some ⟨"fip-1"⟩⟩, ⟨none⟩]⟩ "fip-1"
    ⟨⟨none⟩, by decide, rfl⟩

/-- C4 counterexample: with `protocol`, `from_port` and `to_port` all
supplied (`"tcp"`, `0`, `22`) the Python truthiness guard rejects the zero
port, so no rule is created and nothing is appended — contradicting
"exactly one rule is created". -/
theorem c4_create_rule_counterexample :
    fwCreate [] TrafficDirection.INBOUND (some "tcp") (some 0) (some 22)
        none none = Except.ok ([], none)
    ∧ ¬ ∃ r : AzureRule,
        fwCreate [] TrafficDirection.INBOUND (some "tcp") (some 0) (some 22)
          none none = Except.ok ([r], some r) := by
  have h : fwCreate [] TrafficDirection.INBOUND (some "tcp") (some 0)
      (some 22) none none = Except.ok ([], none) := by
    simp [fwCreate, pyStrTruthy, pyIntTruthy]
  refine ⟨h, ?_⟩
  rintro ⟨r, hr⟩
  rw [h] at hr
  simp at hr

/-- C4 (amended: the three parameters must be supplied and truthy — a
non-empty protocol string and non-zero ports — matching the source's
truthiness guard). Then exactly one rule is created and appended to the
in-memory rule list, with cidr defaulting to `"0.0.0.0/0"` when unset,
priority `1000 + (current rule count + 1)`, name `"Rule - "` followed by
that ordinal, destination port range `"<from>-<to>"`, source port range
`"*"`, destination address prefix `"*"`, access `"Allow"`, and the
direction rendered as `"Inbound"`/`"Outbound"`. -/
theorem c4_create_rule (security_rules : List AzureRule)
    (direction : TrafficDirection) (p : String) (f t : Int)
    (cidr : Option String) (src_dest_fw : Option (List AzureRule))
    (hp : p ≠ "") (hf : f ≠ 0) (ht : t ≠ 0) :
    ∃ r : AzureRule,
      fwCreate security_rules direction (some p) (some f) (some t) cidr
          src_dest_fw = Except.ok (security_rules ++ [r], some r)
      ∧ r.name = "Rule - " ++ toString (security_rules.length + 1)
      ∧ r.priority = 1000 + ((security_rules.length : Int) + 1)
      ∧ (cidr = none → r.source_address_pfx = "0.0.0.0/0")
      ∧ r.protocol = p
      ∧ r.destination_port_range = toString f ++ "-" ++ toString t
      ∧ r.source_port_range = "*"
      ∧ r.destination_address_pfx = "*"
      ∧ r.access = "Allow"
      ∧ (direction = TrafficDirection.INBOUND → r.direction = "Inbound")
      ∧ (direction = TrafficDirection.OUTBOUND → r.direction = "Outbound") := by
  have hpe : p.isEmpty = false := by
    cases h : p.isEmpty
    · rfl
    · exact absurd ((String.isEmpty_iff p).mp h) hp
  have hguard : (pyStrTruthy (some p) && pyIntTruthy (some f)
      && pyIntTruthy (some t)) = true := by
    simp [pyStrTruthy, pyIntTruthy, hpe, hf, ht]
  refine ⟨(fwCreateRuleCore security_rules direction p f t cidr).2, ?_, ?_, ?_,
    ?_, ?_, ?_, ?_, ?_, ?_, ?_, ?_⟩
  · simp [fwCreate, hguard, fwCreateRuleCore]
  · simp [fwCreateRuleCore]
  · simp [fwCreateRuleCore]
  · intro hc
    simp [fwCreateRuleCore, hc, pyStrTruthy]
  · simp [fwCreateRuleCore]
  · simp [fwCreateRuleCore]
  · simp [fwCreateRuleCore]
  · simp [fwCreateRuleCore]
  · simp [fwCreateRuleCore]
  · intro hd
    simp [fwCreateRuleCore, hd]
  · intro hd
    subst hd
    simp [fwCreateRuleCore]

/-- Witness for C4: a concrete truthy create call makes exactly one rule. -/
theorem c4_create_rule_witness :
    ∃ r : AzureRule,
      fwCreate [] TrafficDirection.OUTBOUND (some "tcp") (some 22) (some 443)
        none none = Except.ok ([r], some r) := by
  obtain ⟨r, h1, -⟩ := c4_create_rule [] TrafficDirection.OUTBOUND "tcp" 22 443
    none none (by decide) (by decide) (by decide)
  exact ⟨r, by simpa using h1⟩

/-- A string is its own character list repackaged. -/
theorem string_mk_data (s : String) : String.mk s.data = s := rfl

/-- Appending strings appends their character lists. -/
theorem string_data_append (a b : String) : (a ++ b).data = a.data ++ b.data := rfl

/-- Splitting on the first `'-'` of `a ++ "-" ++ b` recovers `a` and `b`
when `a` itself is `'-'`-free. -/
theorem splitFirstChar_append (a b : List Char) (h : '-' ∉ a) :
    splitFirstChar '-' (a ++ '-' :: b) = some (a, b) := by
  induction a with
  | nil => simp [splitFirstChar]
  | cons c cs ih =>
    have hc : c ≠ '-' := fun hcc => h (hcc ▸ List.mem_cons_self c cs)
    have hcs : '-' ∉ cs := fun hm => h (List.mem_cons_of_mem c hm)
    simp [splitFirstChar, hc, ih hcs]

/-- C6. Port ranges round-trip through rule creation and parsing: a rule
created with `from_port=22, to_port=22` and no cidr exposes cidr
`"0.0.0.0/0"` and port range `(22, 22)`; every rule whose destination port
range is the sentinel `"*"` parses as `(1, 65535)`; and otherwise a range
of the shape `<a>-<b>` is split on the first `'-'` into the two integer
ports. -/
theorem c6_port_range_roundtrip :
    (∃ r : AzureRule,
      fwCreate [] TrafficDirection.INBOUND (some "tcp") (some 22) (some 22)
          none none = Except.ok ([r], some r)
      ∧ ruleCidr r = "0.0.0.0/0"
      ∧ portRangeTuple r = some (22, 22))
    ∧ (∀ r : AzureRule, r.destination_port_range = "*" →
        portRangeTuple r = some (1, 65535))
    ∧ (∀ (r : AzureRule) (a b : String) (x y : Int),
        r.destination_port_range ≠ "*" →
        r.destination_port_range = a ++ "-" ++ b →
        '-' ∉ a.data →
        pyIntParse a = some x →
        pyIntParse b = some y →
        portRangeTuple r = some (x, y)) := by
  refine ⟨?_, ?_, ?_⟩
  · refine ⟨(⟨"Rule - 1", 1001, "tcp", "*", "0.0.0.0/0", "22-22", "*",
      "Allow", "Inbound"⟩ : AzureRule), ?_, rfl, ?_⟩
    · rfl
    · decide
  · intro r h
    simp [portRangeTuple, h]
  · intro r a b x y hne hdpr hnd hxa hyb
    have hdata : r.destination_port_range.data = a.data ++ '-' :: b.data := by
      rw [hdpr]
      rw [string_data_append, string_data_append]
      simp
    simp only [portRangeTuple]
    rw [if_neg hne, hdata, splitFirstChar_append _ _ hnd]
    have ha2 : pyIntParse (String.mk a.data) = some x := by
      rw [string_mk_data a]
      exact hxa
    have hb2 : pyIntParse (String.mk b.data) = some y := by
      rw [string_mk_data b]
      exact hyb
    simp [ha2, hb2]

/-- Witness for C6 at a sentinel rule and a concrete two-port range. -/
theorem c6_port_range_roundtrip_witness :
    portRangeTuple { destination_port_range := "*" } = some (1, 65535)
    ∧ portRangeTuple { destination_port_range := "8000-9090" } = some (8000, 9090) := by
  constructor
  · exact c6_port_range_roundtrip.2.1 _ rfl
  · exact c6_port_range_roundtrip.2.2 _ "8000" "9090" 8000 9090 (by decide) rfl
      (by decide) (by decide) (by decide)

/-- The separator scan never fires at a position whose head is not `'|'`. -/
theorem sepAt_false_of_ne (c : Char) (cs : List Char) (h : c ≠ '|') :
    sepAt c cs = false := by
  cases cs with
  | nil => rfl
  | cons c2 cs2 =>
    cases cs2 with
    | nil => rfl
    | cons c3 cs3 => simp [sepAt, h]

/-- A `'|'`-free character list splits into itself. -/
theorem splitBarF_no_bar (fuel : Nat) :
    ∀ l : List Char, '|' ∉ l → l.length ≤ fuel → splitBarF fuel l = [l] := by
  induction fuel with
  | zero =>
    intro l _ hf
    have hl : l = [] := List.eq_nil_of_length_eq_zero (Nat.le_zero.mp hf)
    subst hl
    rfl
  | succ f ih =>
    intro l h hf
    cases l with
    | nil => rfl
    | cons c cs =>
      have hc : c ≠ '|' := fun hcc => h (hcc ▸ List.mem_cons_self c cs)
      have hcs : '|' ∉ cs := fun hm => h (List.mem_cons_of_mem c hm)
      have hsep := sepAt_false_of_ne c cs hc
      have hlen : cs.length ≤ f := by
        simp only [List.length_cons] at hf
        omega
      simp [splitBarF, hsep, ih cs hcs hlen, consHead]

/-- Splitting `n ++ "|$|" ++ s` recovers `[n, s]` when both `n` and `s`
are `'|'`-free. -/
theorem splitBarF_glue (fuel : Nat) :
    ∀ n s : List Char, '|' ∉ n → '|' ∉ s →
      (n ++ '|' :: '$' :: '|' :: s).length ≤ fuel →
      splitBarF fuel (n ++ '|' :: '$' :: '|' :: s) = [n, s] := by
  induction fuel with
  | zero =>
    intro n s _ _ hf
    simp at hf
  | succ f ih =>
    intro n s hn hs hf
    cases n with
    | nil =>
      have hsep : sepAt '|' ('$' :: '|' :: s) = true := by
        simp [sepAt]
      have hlen : s.length ≤ f := by
        simp at hf
        omega
      simp only [List.nil_append, splitBarF, hsep, if_true, List.drop]
      rw [splitBarF_no_bar f s hs hlen]
    | cons c n' =>
      have hc : c ≠ '|' := fun hcc => hn (hcc ▸ List.mem_cons_self c n')
      have hn' : '|' ∉ n' := fun hm => hn (List.mem_cons_of_mem c hm)
      have hsep := sepAt_false_of_ne c (n' ++ '|' :: '$' :: '|' :: s) hc
      have hlen : (n' ++ '|' :: '$' :: '|' :: s).length ≤ f := by
        simp only [List.cons_append, List.length_cons] at hf
        omega
      have hglue := ih n' s hn' hs hlen
      simp only [List.cons_append, splitBarF, List.append_eq]
      rw [hsep]
      simp [consHead, hglue]

/-- C8 counterexample: for a network id that itself contains the
delimiter (`"a|$|b"`, reachable as a plain string value of the parsed
network-id segment) and subnet name `"c"`, the delete call receives
`("a", "b")`, not the original pair. -/
theorem c8_subnet_roundtrip_counterexample :
    subnetDeleteArgs (subnetId "a|$|b" "c") = some ("a", "b")
    ∧ subnetDeleteArgs (subnetId "a|$|b" "c") ≠ some ("a|$|b", "c") := by
  constructor
  · rfl
  · decide

/-- C8 (amended: the recovery half holds provided neither the network id
nor the subnet name contains the character `'|'` — the counterexample shows
it fails otherwise). The composite id always equals
`<network_id> + "|$|" + <subnet_name>` (e.g. `"net1|$|sub1"`), and
`delete()` splits it on the literal delimiter recovering exactly the two
parts as the backend delete call's arguments. -/
theorem c8_subnet_id_roundtrip :
    subnetId "net1" "sub1" = "net1|$|sub1"
    ∧ (∀ n s : String, subnetId n s = n ++ "|$|" ++ s)
    ∧ (∀ n s : String, '|' ∉ n.data → '|' ∉ s.data →
        subnetDeleteArgs (subnetId n s) = some (n, s)) := by
  refine ⟨rfl, fun n s => rfl, ?_⟩
  intro n s hn hs
  have hdata : (subnetId n s).data = n.data ++ '|' :: '$' :: '|' :: s.data := by
    show ((n ++ "|$|") ++ s).data = _
    rw [string_data_append, string_data_append]
    simp
  simp only [subnetDeleteArgs, pySplitSep]
  rw [hdata, splitBarF_glue _ n.data s.data hn hs (Nat.le_refl _)]
  simp [string_mk_data]

/-- Witness for C8's recovery half at the spec's own example. -/
theorem c8_subnet_id_roundtrip_witness :
    subnetDeleteArgs (subnetId "net1" "sub1") = some ("net1", "sub1") := by
  exact c8_subnet_id_roundtrip.2.2 "net1" "sub1" (by decide) (by decide)

/-- The tag gate of the data-disk deletion: the truthiness-plus-default
check of the source is equivalent to the tag being present with the literal
string value `"True"`. -/
theorem tagGate_iff (tl : List (String × TagVal)) :
    (tl.isEmpty = false
      ∧ mapGet tl "delete_on_terminate" (TagVal.str "False") = TagVal.str "True")
    ↔ pyGet tl "delete_on_terminate" = some (TagVal.str "True") := by
  constructor
  · rintro ⟨-, hv⟩
    cases hg : pyGet tl "delete_on_terminate" with
    | none =>
      rw [mapGet, hg] at hv
      exact absurd hv (by decide)
    | some v =>
      rw [mapGet, hg] at hv
      simp at hv
      rw [hv]
  · intro hg
    have htl : tl ≠ [] := by
      intro h
      subst h
      simp [pyGet] at hg
    constructor
    · cases he : tl.isEmpty with
      | false => rfl
      | true => exact absurd (List.isEmpty_iff.mp he) htl
    · rw [mapGet, hg]
      rfl

/-- C3. In `AzureInstance.delete()`: a managed data disk is deleted if and
only if the fetched disk carries a tag key `delete_on_terminate` whose
value is the literal string `"True"` (string comparison — an absent tag,
the string `"False"`, a boolean `true`, or any other value leaves the disk
un-deleted); a non-managed data disk is never deleted; the issued call
names exactly the resolved disk; and the OS disk is deleted unconditionally
whenever it is a managed disk (and only then). -/
theorem c3_delete_disk_tag_gating :
    (∀ (client : List (String × AzureDiskData)) (dd : DataDisk)
        (m : ManagedDiskRef), dd.managed_disk = some m →
      ((dataDiskDeleteCall client dd).isSome = true ↔
        ∃ (n : String) (d : AzureDiskData) (tl : List (String × TagVal)),
          volNameFromId m.id = some n
          ∧ clientGetDisk client n = some d
          ∧ d.tags = some tl
          ∧ pyGet tl "delete_on_terminate" = some (TagVal.str "True")))
    ∧ (∀ (client : List (String × AzureDiskData)) (dd : DataDisk),
        dd.managed_disk = none → dataDiskDeleteCall client dd = none)
    ∧ (∀ (client : List (String × AzureDiskData)) (dd : DataDisk)
        (m : ManagedDiskRef), dd.managed_disk = some m →
        (dataDiskDeleteCall client dd).isSome = true →
        dataDiskDeleteCall client dd = some (volNameFromId m.id))
    ∧ (∀ (client : List (String × AzureDiskData)) (sp : StorageProfile)
        (m : ManagedDiskRef), sp.os_disk.managed_disk = some m →
        volNameFromId m.id ∈ instanceDeleteDiskCalls client sp)
    ∧ (∀ (client : List (String × AzureDiskData)) (sp : StorageProfile),
        sp.os_disk.managed_disk = none →
        instanceDeleteDiskCalls client sp =
          sp.data_disks.filterMap (dataDiskDeleteCall client)) := by
  refine ⟨?_, ?_, ?_, ?_, ?_⟩
  · intro client dd m hm
    simp only [dataDiskDeleteCall, hm]
    cases hv : volNameFromId m.id with
    | none => simp
    | some n =>
      cases hd : clientGetDisk client n with
      | none => simp [hd]
      | some d =>
        cases htags : d.tags with
        | none => simp [hd, htags]
        | some tl =>
          by_cases he : tl.isEmpty = true
          · have htl : tl = [] := List.isEmpty_iff.mp he
            subst htl
            simp [hd, htags, pyGet]
          · have he' : tl.isEmpty = false := by
              cases h2 : tl.isEmpty with
              | false => rfl
              | true => exact absurd h2 he
            by_cases hval : mapGet tl "delete_on_terminate" (TagVal.str "False")
                = TagVal.str "True"
            · simp only [Option.some_bind, hd, htags, he', Bool.false_eq_true,
                if_false, hval, if_true, Option.isSome_some, true_iff]
              exact ⟨n, d, tl, rfl, hd, htags, (tagGate_iff tl).mp ⟨he', hval⟩⟩
            · simp only [Option.some_bind, hd, htags, he', Bool.false_eq_true,
                if_false, hval, Option.isSome_none]
              constructor
              · intro h
                simp at h
              · rintro ⟨n', d', tl', hn', hd', htl', hpg⟩
                have hn2 : n' = n := (Option.some.inj hn').symm
                subst hn2
                rw [hd] at hd'
                have hd2 : d' = d := (Option.some.inj hd').symm
                subst hd2
                rw [htags] at htl'
                have htl2 : tl' = tl := (Option.some.inj htl').symm
                rw [htl2] at hpg
                exact absurd ((tagGate_iff tl).mpr hpg).2 hval
  · intro client dd hm
    simp [dataDiskDeleteCall, hm]
  · intro client dd m hm hsome
    simp only [dataDiskDeleteCall, hm] at hsome ⊢
    cases hv : (volNameFromId m.id).bind (clientGetDisk client) with
    | none =>
      rw [hv] at hsome
      simp at hsome
    | some d =>
      rw [hv] at hsome
      cases htags : d.tags with
      | none => simp [htags] at hsome
      | some tl =>
        by_cases he : tl.isEmpty = true
        · simp [htags, he] at hsome
        · by_cases hval : mapGet tl "delete_on_terminate" (TagVal.str "False")
              = TagVal.str "True"
          · simp [htags, he, hval]
          · simp [htags, he, hval] at hsome
  · intro client sp m hm
    simp [instanceDeleteDiskCalls, osDiskDeleteCall, hm]
  · intro client sp hm
    simp [instanceDeleteDiskCalls, osDiskDeleteCall, hm]

/-- Witness for C3: a data disk tagged `delete_on_terminate="True"` is
deleted, and the managed OS disk's delete call is always issued. -/
theorem c3_delete_disk_tag_gating_witness :
    (dataDiskDeleteCall
      [("d1", ⟨"d1", "Succeeded", none,
        some [("delete_on_terminate", TagVal.str "True")]⟩)]
      ⟨some ⟨"/subscriptions/s1/resourceGroups/g1/providers/Microsoft.Compute/disks/d1"⟩⟩).isSome = true
    ∧ volNameFromId
        "/subscriptions/s1/resourceGroups/g1/providers/Microsoft.Compute/disks/d2"
      ∈ instanceDeleteDiskCalls
        [("d1", ⟨"d1", "Succeeded", none,
          some [("delete_on_terminate", TagVal.str "True")]⟩)]
        ⟨[⟨some ⟨"/subscriptions/s1/resourceGroups/g1/providers/Microsoft.Compute/disks/d1"⟩⟩],
         ⟨some ⟨"/subscriptions/s1/resourceGroups/g1/providers/Microsoft.Compute/disks/d2"⟩⟩⟩ := by
  constructor
  · exact (c3_delete_disk_tag_gating.1 _ _
      ⟨"/subscriptions/s1/resourceGroups/g1/providers/Microsoft.Compute/disks/d1"⟩
      rfl).mpr
      ⟨"d1", ⟨"d1", "Succeeded", none,
        some [("delete_on_terminate", TagVal.str "True")]⟩,
       [("delete_on_terminate", TagVal.str "True")],
       by decide, by decide, rfl, by decide⟩
  · exact c3_delete_disk_tag_gating.2.2.2.1 _ _
      ⟨"/subscriptions/s1/resourceGroups/g1/providers/Microsoft.Compute/disks/d2"⟩
      rfl
